import Mathlib

/-!
Verification of the copper-substrate KiCad footprint serializer.

The development shallowly embeds the data model of
`crates/substrate/src/board_interface.rs`, the courtyard derivation of
`crates/substrate/src/courtyard.rs`, the layer taxonomy of
`crates/substrate/src/layer_type.rs`, and the serializer of
`src/exporters/kicad_pcb_export.rs`.

Modelling conventions:
* Rust `f32` coordinates are embedded as `ℚ` (the serializer performs only
  additions and subtractions on them, which `ℚ` reproduces exactly); the
  `Display` rendering of a number is abstracted as `fmtNum`, a fixed total
  function — none of the verified properties constrains the digit strings.
* `Uuid::new_v4()` is modelled as drawing from a fresh-token counter: each
  call yields a token never produced before, and the counter state is
  threaded explicitly.  This captures the freshness (and hence pairwise
  distinctness) of v4 UUIDs while staying deterministic in the state.
* The trait `BoardComposableObject` is embedded as a record: each accessor
  becomes a field, reflecting the fixed-state contract (accessors return
  identical values on every call within a serialization pass).
-/

/-- Rendering of a numeric value to text (Rust: the `Display` of `f32`).
Abstracted as the canonical rational rendering; total and deterministic. -/
def fmtNum (q : ℚ) : String := toString q

/-- Fresh identity token n (Rust: `Uuid::new_v4().to_string()`, modelled as a
counter of fresh tokens). -/
def freshUuid (n : Nat) : String := "uuid-" ++ toString n

/-- Core geometric rectangle (board_interface.rs). -/
structure Rectangle where
  min_x : ℚ
  min_y : ℚ
  max_x : ℚ
  max_y : ℚ
deriving DecidableEq

/-- Pad mounting technology (board_interface.rs `PadType`). -/
inductive PadType where
  | SMD
  | ThroughHole
  | NPTH
deriving DecidableEq

/-- Pad shape (board_interface.rs `PadShape`). -/
inductive PadShape where
  | Circle
  | Rect
  | Oval
  | RoundRect
deriving DecidableEq

/-- Tenting choice (board_interface.rs `TentingType`). -/
inductive TentingType where
  | None
  | Full
  | Partial
deriving DecidableEq

/-- Front/back tenting settings (board_interface.rs `TentingSettings`). -/
structure TentingSettings where
  front : TentingType
  back : TentingType
deriving DecidableEq

/-- Pad descriptor (board_interface.rs `PadDescriptor`). -/
structure PadDescriptor where
  number : String
  pad_type : PadType
  shape : PadShape
  position : ℚ × ℚ
  size : ℚ × ℚ
  drill_size : Option ℚ
  layers : List String
  roundrect_ratio : Option ℚ
  tenting : TentingSettings
  uuid : String
deriving DecidableEq

/-- Text element kind (board_interface.rs `FpTextType`). -/
inductive FpTextType where
  | Reference
  | Value
  | User
deriving DecidableEq

/-- Font settings (board_interface.rs `FontSettings`). -/
structure FontSettings where
  size : ℚ × ℚ
  thickness : ℚ
deriving DecidableEq

/-- Footprint text element (board_interface.rs `FpText`). -/
structure FpText where
  text_type : FpTextType
  text : String
  position : ℚ × ℚ
  rotation : Option ℚ
  layer : String
  uuid : String
  font : FontSettings
deriving DecidableEq

/-- Layer taxonomy (layer_type.rs `LayerType`). -/
inductive LayerType where
  | SilkScreen
  | Courtyard
  | Fabrication
  | Copper
  | Mask
  | Paste
deriving DecidableEq

/-- Fixed mapping of a layer to its KiCad string (layer_type.rs
`LayerType::to_kicad_string`). -/
def LayerType.to_kicad_string : LayerType → String
  | LayerType.SilkScreen => "F.SilkS"
  | LayerType.Courtyard => "F.CrtYd"
  | LayerType.Fabrication => "F.Fab"
  | LayerType.Copper => "F.Cu"
  | LayerType.Mask => "F.Mask"
  | LayerType.Paste => "F.Paste"

/-- Stroke type (board_interface.rs `StrokeType`). -/
inductive StrokeType where
  | Solid
  | Dashed
  | Dotted
deriving DecidableEq

/-- Stroke (board_interface.rs `Stroke`). -/
structure Stroke where
  width : ℚ
  stroke_type : StrokeType
deriving DecidableEq

/-- Graphic element variant (board_interface.rs `GraphicType`).  The Rust
field `end` of `Line` is a Lean keyword; it is named `stop` here. -/
inductive GraphicType where
  | Line (start stop : ℚ × ℚ)
  | Rectangle (bounds : Rectangle)
  | Circle (center : ℚ × ℚ) (radius : ℚ)
deriving DecidableEq

/-- Graphic element (board_interface.rs `GraphicElement`). -/
structure GraphicElement where
  element_type : GraphicType
  layer : LayerType
  stroke : Stroke
  uuid : String
deriving DecidableEq

/-- 3-D model reference (board_interface.rs `Model3D`). -/
structure Model3D where
  path : String
  offset : ℚ × ℚ × ℚ
  scale : ℚ × ℚ × ℚ
  rotation : ℚ × ℚ × ℚ
deriving DecidableEq

/-- Functional classification (functional_types.rs `FunctionalType`). -/
inductive FunctionalType where
  | Resistor (s : String)
  | Capacitor (s : String)
  | Inductor (s : String)
  | Connector (s : String)
  | Fuse (s : String)
  | Protection (s : String)
  | IntegratedCircuit (s : String)
  | ADC (s : String)
  | DAC (s : String)
  | FPGA (s : String)
  | MCU (s : String)
  | LED (s : String)
  | LCD (s : String)
  | IsolationIC (s : String)
  | OpAmp (s : String)
  | Timer (s : String)
deriving DecidableEq

/-- Courtyard (courtyard.rs `Courtyard`). -/
structure Courtyard where
  bounds : Rectangle
  margin : ℚ
  layer : LayerType
deriving DecidableEq

/-- Courtyard construction (courtyard.rs `Courtyard::new`): the bounding box
expanded by the margin on all four sides, on the courtyard layer. -/
def Courtyard.new (bounds : Rectangle) (margin : ℚ) : Courtyard :=
  { bounds :=
      { min_x := bounds.min_x - margin
        min_y := bounds.min_y - margin
        max_x := bounds.max_x + margin
        max_y := bounds.max_y + margin }
    margin := margin
    layer := LayerType.Courtyard }

/-- Courtyard rendering to graphic elements (courtyard.rs
`Courtyard::to_graphic_elements`).  `gen` is the fresh-token counter from
which the four `Uuid::new_v4()` calls draw. -/
def Courtyard.to_graphic_elements (self : Courtyard) (gen : Nat) :
    List GraphicElement :=
  [ { element_type := GraphicType.Line
        (self.bounds.min_x, self.bounds.min_y)
        (self.bounds.max_x, self.bounds.min_y)
      layer := self.layer
      stroke := { width := 0.05, stroke_type := StrokeType.Solid }
      uuid := freshUuid gen }
  , { element_type := GraphicType.Line
        (self.bounds.max_x, self.bounds.min_y)
        (self.bounds.max_x, self.bounds.max_y)
      layer := self.layer
      stroke := { width := 0.05, stroke_type := StrokeType.Solid }
      uuid := freshUuid (gen + 1) }
  , { element_type := GraphicType.Line
        (self.bounds.max_x, self.bounds.max_y)
        (self.bounds.min_x, self.bounds.max_y)
      layer := self.layer
      stroke := { width := 0.05, stroke_type := StrokeType.Solid }
      uuid := freshUuid (gen + 2) }
  , { element_type := GraphicType.Line
        (self.bounds.min_x, self.bounds.max_y)
        (self.bounds.min_x, self.bounds.min_y)
      layer := self.layer
      stroke := { width := 0.05, stroke_type := StrokeType.Solid }
      uuid := freshUuid (gen + 3) } ]

/-- Component descriptor (board_interface.rs trait `BoardComposableObject`),
embedded as a record of its accessors.  Defaults mirror the trait's default
methods (`is_passive` false, `courtyard_margin` 0.25). -/
structure BoardComposableObject where
  is_smt : Bool
  is_electrical : Bool
  is_passive : Bool := false
  terminal_count : Nat
  functional_type : FunctionalType
  footprint_name : String
  library_name : String
  bounding_box : Rectangle
  pad_descriptors : List PadDescriptor
  description : Option String
  tags : Option String
  fp_text_elements : List FpText
  graphic_elements : List GraphicElement
  model_3d : Option Model3D
  courtyard_margin : ℚ := 0.25

/-- Courtyard derivation (board_interface.rs default method
`BoardComposableObject::generate_courtyard`). -/
def BoardComposableObject.generate_courtyard (c : BoardComposableObject) :
    Courtyard :=
  Courtyard.new c.bounding_box c.courtyard_margin

/-- Helper for KiCad output formatting (kicad_pcb_export.rs `write_fp_text`):
appends one fp_text block to the output buffer. -/
def write_fp_text (output : String) (fp_text : FpText) : String :=
  let text_type_str :=
    match fp_text.text_type with
    | FpTextType.Reference => "reference"
    | FpTextType.Value => "value"
    | FpTextType.User => "user"
  let output := output ++ "\t(fp_text " ++ text_type_str ++ " \"" ++
    fp_text.text ++ "\""
  let output :=
    match fp_text.rotation with
    | some rotation =>
        output ++ " (at " ++ fmtNum fp_text.position.1 ++ " " ++
          fmtNum fp_text.position.2 ++ " " ++ fmtNum rotation ++ ")"
    | none =>
        output ++ " (at " ++ fmtNum fp_text.position.1 ++ " " ++
          fmtNum fp_text.position.2 ++ ")"
  let output := output ++ " (layer \"" ++ fp_text.layer ++ "\")\n"
  let output := output ++ "\t\t(effects (font (size " ++
    fmtNum fp_text.font.size.1 ++ " " ++ fmtNum fp_text.font.size.2 ++
    ") (thickness " ++ fmtNum fp_text.font.thickness ++ ")))\n"
  let output := output ++ "\t\t(tstamp \"" ++ fp_text.uuid ++ "\")\n"
  output ++ "\t)\n"

/-- Helper (kicad_pcb_export.rs `write_graphic_element`): appends one fp_line
block for a `Line` element; other variants append nothing (the Rust match arm
`_ => {}` is an empty body).  Note the stroke type keyword is the literal
`solid` regardless of the element's `stroke_type`. -/
def write_graphic_element (output : String) (element : GraphicElement) :
    String :=
  match element.element_type with
  | GraphicType.Line start stop =>
      output ++ "\t(fp_line\n" ++
        "\t\t(start " ++ fmtNum start.1 ++ " " ++ fmtNum start.2 ++ ")\n" ++
        "\t\t(end " ++ fmtNum stop.1 ++ " " ++ fmtNum stop.2 ++ ")\n" ++
        "\t\t(stroke\n" ++
        "\t\t\t(width " ++ fmtNum element.stroke.width ++ ")\n" ++
        "\t\t\t(type solid)\n" ++
        "\t\t)\n" ++
        "\t\t(layer \"" ++ element.layer.to_kicad_string ++ "\")\n" ++
        "\t\t(tstamp \"" ++ element.uuid ++ "\")\n" ++
        "\t)\n"
  | _ => output

/-- Helper (kicad_pcb_export.rs `write_detailed_pad`): appends one pad block.
The pad's `drill_size` and `tenting` fields are never read. -/
def write_detailed_pad (output : String) (pad : PadDescriptor) : String :=
  let output := output ++ "\t(pad \"" ++ pad.number ++ "\" " ++
    (match pad.pad_type with
     | PadType.SMD => "smd"
     | PadType.ThroughHole => "thru_hole"
     | PadType.NPTH => "np_thru_hole") ++ " " ++
    (match pad.shape with
     | PadShape.RoundRect => "roundrect"
     | PadShape.Rect => "rect"
     | PadShape.Circle => "circle"
     | PadShape.Oval => "oval")
  let output := output ++ "\n"
  let output := output ++ "\t\t(at " ++ fmtNum pad.position.1 ++ " " ++
    fmtNum pad.position.2 ++ ")\n"
  let output := output ++ "\t\t(size " ++ fmtNum pad.size.1 ++ " " ++
    fmtNum pad.size.2 ++ ")\n"
  let output := output ++ "\t\t(layers"
  let output := pad.layers.foldl
    (fun acc layer => acc ++ " \"" ++ layer ++ "\"") output
  let output := output ++ ")\n"
  let output :=
    match pad.roundrect_ratio with
    | some ratio => output ++ "\t\t(roundrect_rratio " ++ fmtNum ratio ++ ")\n"
    | none => output
  let output := output ++ "\t\t(tstamp \"" ++ pad.uuid ++ "\")\n"
  output ++ "\t)\n"

/-- The serializer (kicad_pcb_export.rs `to_kicad_footprint`).  `gen` is the
fresh-token counter consumed by the courtyard's four `Uuid::new_v4()` calls;
the advanced counter is returned alongside the output so that a second,
successive invocation can be expressed. -/
def to_kicad_footprint (component : BoardComposableObject) (gen : Nat) :
    String × Nat :=
  let output := ""
  let output := output ++ "(footprint \"" ++ component.footprint_name ++
    "\"\n"
  let output := output ++ "\t(version 20250401)\n"
  let output := output ++ "\t(generator \"custom_pcb_tool\")\n"
  let output := output ++ "\t(generator_version \"1.0\")\n"
  let output := output ++ "\t(layer \"F.Cu\")\n"
  let output :=
    match component.description with
    | some desc => output ++ "\t(descr \"" ++ desc ++ "\")\n"
    | none => output
  let output :=
    match component.tags with
    | some tags => output ++ "\t(tags \"" ++ tags ++ "\")\n"
    | none => output
  let is_smt := component.pad_descriptors.any fun pad =>
    match pad.pad_type with
    | PadType.SMD => true
    | _ => false
  let output := if is_smt then output ++ "\t(attr smd)\n" else output
  let output := output ++ "\t(duplicate_pad_numbers_are_jumpers no)\n"
  let output := component.fp_text_elements.foldl write_fp_text output
  let courtyard := component.generate_courtyard
  let all_graphics :=
    component.graphic_elements ++ courtyard.to_graphic_elements gen
  let gen := gen + 4
  let output := all_graphics.foldl write_graphic_element output
  let output := component.pad_descriptors.foldl write_detailed_pad output
  let output :=
    match component.model_3d with
    | some model =>
        output ++ "\t(model \"" ++ model.path ++ "\"\n" ++
          "\t\t(offset\n" ++
          "\t\t\t(xyz " ++ fmtNum model.offset.1 ++ " " ++
            fmtNum model.offset.2.1 ++ " " ++ fmtNum model.offset.2.2 ++
            ")\n" ++
          "\t\t)\n" ++
          "\t\t(scale\n" ++
          "\t\t\t(xyz " ++ fmtNum model.scale.1 ++ " " ++
            fmtNum model.scale.2.1 ++ " " ++ fmtNum model.scale.2.2 ++
            ")\n" ++
          "\t\t)\n" ++
          "\t\t(rotate\n" ++
          "\t\t\t(xyz " ++ fmtNum model.rotation.1 ++ " " ++
            fmtNum model.rotation.2.1 ++ " " ++ fmtNum model.rotation.2.2 ++
            ")\n" ++
          "\t\t)\n" ++
          "\t)\n"
    | none => output
  let output := output ++ "\t(embedded_fonts no)\n"
  (output ++ ")\n", gen)

/-- Header lines 1-5 of the output (footprint name, version, generator,
generator version, default layer). -/
def headerFixed (c : BoardComposableObject) : String :=
  "(footprint \"" ++ c.footprint_name ++ "\"\n" ++
  "\t(version 20250401)\n" ++
  "\t(generator \"custom_pcb_tool\")\n" ++
  "\t(generator_version \"1.0\")\n" ++
  "\t(layer \"F.Cu\")\n"

/-- The description line, present exactly when `description` is present. -/
def descrSeg (c : BoardComposableObject) : String :=
  match c.description with
  | some desc => "\t(descr \"" ++ desc ++ "\")\n"
  | none => ""

/-- The tags line, present exactly when `tags` is present. -/
def tagsSeg (c : BoardComposableObject) : String :=
  match c.tags with
  | some tags => "\t(tags \"" ++ tags ++ "\")\n"
  | none => ""

/-- The serializer's `is_smt` test: some pad has pad_type SMD. -/
def anySMD (c : BoardComposableObject) : Bool :=
  c.pad_descriptors.any fun pad =>
    match pad.pad_type with
    | PadType.SMD => true
    | _ => false

/-- The surface-mount attribute line, gated on `anySMD`. -/
def attrSeg (c : BoardComposableObject) : String :=
  if anySMD c then "\t(attr smd)\n" else ""

/-- The fixed duplicate-pad-numbers directive. -/
def jumperLine : String := "\t(duplicate_pad_numbers_are_jumpers no)\n"

/-- The header section: items 1-5 of the section order (fixed header,
optional description, optional tags, gated SMD attribute, directive). -/
def headerSection (c : BoardComposableObject) : String :=
  headerFixed c ++ descrSeg c ++ tagsSeg c ++ attrSeg c ++ jumperLine

/-- Rendering of a list of text elements into one string. -/
def renderTexts (l : List FpText) : String := l.foldl write_fp_text ""

/-- Rendering of a list of graphic elements into one string. -/
def renderGraphics (l : List GraphicElement) : String :=
  l.foldl write_graphic_element ""

/-- Rendering of a list of pads into one string. -/
def renderPads (l : List PadDescriptor) : String :=
  l.foldl write_detailed_pad ""

/-- Rendering of a pad's layer-name list. -/
def renderLayers (l : List String) : String :=
  l.foldl (fun acc layer => acc ++ " \"" ++ layer ++ "\"") ""

/-- The fp_text section of the output. -/
def textSection (c : BoardComposableObject) : String :=
  renderTexts c.fp_text_elements

/-- The graphics section of the output: descriptor graphics concatenated
with the derived courtyard's four lines, all rendered. -/
def graphicsSection (c : BoardComposableObject) (gen : Nat) : String :=
  renderGraphics
    (c.graphic_elements ++ c.generate_courtyard.to_graphic_elements gen)

/-- The pad section of the output. -/
def padsSection (c : BoardComposableObject) : String :=
  renderPads c.pad_descriptors

/-- The rendered 3-D model block. -/
def modelStr (model : Model3D) : String :=
  "\t(model \"" ++ model.path ++ "\"\n" ++
  "\t\t(offset\n" ++
  "\t\t\t(xyz " ++ fmtNum model.offset.1 ++ " " ++
    fmtNum model.offset.2.1 ++ " " ++ fmtNum model.offset.2.2 ++ ")\n" ++
  "\t\t)\n" ++
  "\t\t(scale\n" ++
  "\t\t\t(xyz " ++ fmtNum model.scale.1 ++ " " ++
    fmtNum model.scale.2.1 ++ " " ++ fmtNum model.scale.2.2 ++ ")\n" ++
  "\t\t)\n" ++
  "\t\t(rotate\n" ++
  "\t\t\t(xyz " ++ fmtNum model.rotation.1 ++ " " ++
    fmtNum model.rotation.2.1 ++ " " ++ fmtNum model.rotation.2.2 ++ ")\n" ++
  "\t\t)\n" ++
  "\t)\n"

/-- The 3-D model section, present exactly when `model_3d` is present. -/
def modelSeg (c : BoardComposableObject) : String :=
  match c.model_3d with
  | some model => modelStr model
  | none => ""

/-- The closing flags: embedded-fonts line and the closing parenthesis. -/
def closingSection : String := "\t(embedded_fonts no)\n" ++ ")\n"

/-- A left fold by a buffer-appending writer factors through the empty
buffer. -/
theorem foldl_factor {α : Type} (f : String → α → String)
    (hf : ∀ s x, f s x = s ++ f "" x) :
    ∀ (l : List α) (s : String), l.foldl f s = s ++ l.foldl f ""
  | [], s => (String.append_empty s).symm
  | x :: l, s => by
    rw [List.foldl_cons, List.foldl_cons, foldl_factor f hf l (f s x),
      foldl_factor f hf l (f "" x), hf s x, String.append_assoc]

/-- `write_fp_text` appends to its buffer. -/
theorem write_fp_text_factor (out : String) (t : FpText) :
    write_fp_text out t = out ++ write_fp_text "" t := by
  unfold write_fp_text
  cases hr : t.rotation <;>
    simp [hr, String.append_assoc, String.empty_append]

/-- `write_graphic_element` appends to its buffer. -/
theorem write_graphic_element_factor (out : String) (e : GraphicElement) :
    write_graphic_element out e = out ++ write_graphic_element "" e := by
  unfold write_graphic_element
  cases he : e.element_type <;>
    simp [he, String.append_assoc, String.empty_append, String.append_empty]

/-- The layer-list fold of `write_detailed_pad` factors through
`renderLayers`. -/
theorem foldl_layers (l : List String) (s : String) :
    l.foldl (fun acc layer => acc ++ " \"" ++ layer ++ "\"") s =
      s ++ renderLayers l :=
  foldl_factor _
    (fun s x => by simp [String.append_assoc, String.empty_append]) l s

/-- `write_detailed_pad` appends to its buffer. -/
theorem write_detailed_pad_factor (out : String) (p : PadDescriptor) :
    write_detailed_pad out p = out ++ write_detailed_pad "" p := by
  unfold write_detailed_pad
  simp only [foldl_layers]
  cases hr : p.roundrect_ratio <;>
    simp [hr, String.append_assoc, String.empty_append]

/-- Folding text elements factors through `renderTexts`. -/
theorem foldl_write_fp_text (l : List FpText) (s : String) :
    l.foldl write_fp_text s = s ++ renderTexts l :=
  foldl_factor write_fp_text write_fp_text_factor l s

/-- Folding graphic elements factors through `renderGraphics`. -/
theorem foldl_write_graphic (l : List GraphicElement) (s : String) :
    l.foldl write_graphic_element s = s ++ renderGraphics l :=
  foldl_factor write_graphic_element write_graphic_element_factor l s

/-- Folding pads factors through `renderPads`. -/
theorem foldl_write_pad (l : List PadDescriptor) (s : String) :
    l.foldl write_detailed_pad s = s ++ renderPads l :=
  foldl_factor write_detailed_pad write_detailed_pad_factor l s

/-- Rendering distributes over list concatenation. -/
theorem renderGraphics_append (l1 l2 : List GraphicElement) :
    renderGraphics (l1 ++ l2) = renderGraphics l1 ++ renderGraphics l2 := by
  unfold renderGraphics
  rw [List.foldl_append,
    foldl_factor write_graphic_element write_graphic_element_factor]

/-- The serializer's output decomposes into the six ordered sections, and
the fresh-token counter advances by exactly the four courtyard draws. -/
theorem to_kicad_footprint_decomp (c : BoardComposableObject) (gen : Nat) :
    to_kicad_footprint c gen =
      (headerSection c ++ textSection c ++ graphicsSection c gen ++
        padsSection c ++ modelSeg c ++ closingSection, gen + 4) := by
  unfold to_kicad_footprint headerSection headerFixed descrSeg tagsSeg
    attrSeg jumperLine textSection graphicsSection padsSection modelSeg
    modelStr closingSection anySMD
  simp only [foldl_write_fp_text, foldl_write_graphic, foldl_write_pad]
  cases hd : c.description <;> cases ht : c.tags <;>
    cases hm : c.model_3d <;>
      cases hs : c.pad_descriptors.any fun pad =>
          match pad.pad_type with
          | PadType.SMD => true
          | _ => false <;>
    simp [-String.reduceAppend, hd, ht, hm, hs, String.append_assoc,
      String.empty_append, String.append_empty]

/-- Appending the same string on the left is cancellative. -/
theorem str_append_left_cancel {a b c : String} (h : a ++ b = a ++ c) :
    b = c := by
  have hd := congrArg String.data h
  rw [String.data_append, String.data_append] at hd
  exact String.ext (List.append_cancel_left hd)

/-- Two strings with distinct equal-length heads are distinct. -/
theorem str_prefix_ne {p q s t : String}
    (hlen : p.data.length = q.data.length) (hne : p ≠ q) :
    p ++ s ≠ q ++ t := by
  intro h
  have hd := congrArg String.data h
  rw [String.data_append, String.data_append] at hd
  exact hne (String.ext (List.append_inj hd hlen).1)

/-- A string with a nonempty suffix is nonempty. -/
theorem str_append_ne_empty {a b : String} (h : b ≠ "") : a ++ b ≠ "" := by
  intro he
  have hd := congrArg String.data he
  rw [String.data_append] at hd
  exact h (String.ext (List.append_eq_nil.mp hd).2)

/-- The keyword of a text element type (the match opening
`write_fp_text`). -/
def textTypeStr : FpTextType → String
  | FpTextType.Reference => "reference"
  | FpTextType.Value => "value"
  | FpTextType.User => "user"

/-- The rendered courtyard lines as a function of the courtyard and the
four identity tokens stamped onto them. -/
def courtyardRender (cy : Courtyard) (u1 u2 u3 u4 : String) : String :=
  renderGraphics
    [ { element_type := GraphicType.Line
          (cy.bounds.min_x, cy.bounds.min_y)
          (cy.bounds.max_x, cy.bounds.min_y)
        layer := cy.layer
        stroke := { width := 0.05, stroke_type := StrokeType.Solid }
        uuid := u1 }
    , { element_type := GraphicType.Line
          (cy.bounds.max_x, cy.bounds.min_y)
          (cy.bounds.max_x, cy.bounds.max_y)
        layer := cy.layer
        stroke := { width := 0.05, stroke_type := StrokeType.Solid }
        uuid := u2 }
    , { element_type := GraphicType.Line
          (cy.bounds.max_x, cy.bounds.max_y)
          (cy.bounds.min_x, cy.bounds.max_y)
        layer := cy.layer
        stroke := { width := 0.05, stroke_type := StrokeType.Solid }
        uuid := u3 }
    , { element_type := GraphicType.Line
          (cy.bounds.min_x, cy.bounds.max_y)
          (cy.bounds.min_x, cy.bounds.min_y)
        layer := cy.layer
        stroke := { width := 0.05, stroke_type := StrokeType.Solid }
        uuid := u4 } ]

/-- The courtyard's rendering depends on the token counter only through
the four stamped tokens. -/
theorem renderGraphics_courtyard (cy : Courtyard) (gen : Nat) :
    renderGraphics (cy.to_graphic_elements gen) =
      courtyardRender cy (freshUuid gen) (freshUuid (gen + 1))
        (freshUuid (gen + 2)) (freshUuid (gen + 3)) := rfl

/-- A minimal concrete descriptor used as a test input. -/
def cex : BoardComposableObject :=
  { is_smt := false
    is_electrical := false
    terminal_count := 0
    functional_type := FunctionalType.Resistor "R"
    footprint_name := "R_TEST"
    library_name := "LIB"
    bounding_box := { min_x := 0, min_y := 0, max_x := 0, max_y := 0 }
    pad_descriptors := []
    description := none
    tags := none
    fp_text_elements := []
    graphic_elements := []
    model_3d := none
    courtyard_margin := 0 }

/-- C2: the section-order invariant.  Every output of the serializer is
exactly the header section, followed by the fp_text section, the graphics
(fp_line) section, the pad section, the 3-D model section (empty when no
model is present), and finally the closing embedded-fonts flag and closing
token, in this order. -/
theorem section_order_invariant (c : BoardComposableObject) (gen : Nat) :
    (to_kicad_footprint c gen).1 =
      headerSection c ++ textSection c ++ graphicsSection c gen ++
        padsSection c ++ modelSeg c ++ closingSection := by
  rw [to_kicad_footprint_decomp]

/-- C3: the graphics section of the output is exactly the rendered Line
elements of the descriptor's graphic_elements followed by the rendered
courtyard lines, in that concatenation order, and any element whose
variant is Rectangle or Circle contributes nothing to the output. -/
theorem graphics_concatenation_order (c : BoardComposableObject)
    (gen : Nat) :
    (to_kicad_footprint c gen).1 =
      headerSection c ++ textSection c ++
        (renderGraphics c.graphic_elements ++
          renderGraphics (c.generate_courtyard.to_graphic_elements gen)) ++
        padsSection c ++ modelSeg c ++ closingSection ∧
    (∀ (e : GraphicElement) (s : String),
      (∀ a b, e.element_type ≠ GraphicType.Line a b) →
        write_graphic_element s e = s) := by
  constructor
  · rw [to_kicad_footprint_decomp]
    simp only [graphicsSection, renderGraphics_append, String.append_assoc]
  · intro e s h
    unfold write_graphic_element
    cases he : e.element_type with
    | Line a b => exact absurd he (h a b)
    | Rectangle r => rfl
    | Circle ctr rad => rfl

/-- Witness for the graphics-concatenation theorem: a Rectangle graphic
element is silently omitted (appending it changes nothing). -/
theorem graphics_concatenation_order_witness :
    write_graphic_element "buf"
      { element_type :=
          GraphicType.Rectangle
            { min_x := 0, min_y := 0, max_x := 1, max_y := 1 }
        layer := LayerType.SilkScreen
        stroke := { width := 1, stroke_type := StrokeType.Solid }
        uuid := "u" } = "buf" :=
  (graphics_concatenation_order cex 0).2 _ "buf"
    (fun _ _ h => GraphicType.noConfusion h)

/-- C4 counterexample: two Line elements that differ only in stroke_type
(Dashed versus Solid) render to byte-identical blocks, so the Dashed and
Dotted stroke types do not receive their own distinct type keywords. -/
theorem stroke_type_not_rendered :
    write_graphic_element ""
      { element_type := GraphicType.Line (0, 0) (1, 0)
        layer := LayerType.SilkScreen
        stroke := { width := 1, stroke_type := StrokeType.Dashed }
        uuid := "u" } =
      write_graphic_element ""
        { element_type := GraphicType.Line (0, 0) (1, 0)
          layer := LayerType.SilkScreen
          stroke := { width := 1, stroke_type := StrokeType.Solid }
          uuid := "u" } := rfl

/-- C4 amended: every rendered Line block contains its start and end
coordinates, a nested stroke block with the element's width and the
constant keyword `solid` regardless of the element's stroke_type, the
layer string from the taxonomy's fixed mapping, and the identity stamp;
and the taxonomy mapping is the fixed table. -/
theorem line_render_template (out : String) (a b : ℚ × ℚ)
    (layer : LayerType) (w : ℚ) (st : StrokeType) (u : String) :
    write_graphic_element out
      { element_type := GraphicType.Line a b
        layer := layer
        stroke := { width := w, stroke_type := st }
        uuid := u } =
      out ++ "\t(fp_line\n" ++
        "\t\t(start " ++ fmtNum a.1 ++ " " ++ fmtNum a.2 ++ ")\n" ++
        "\t\t(end " ++ fmtNum b.1 ++ " " ++ fmtNum b.2 ++ ")\n" ++
        "\t\t(stroke\n" ++
        "\t\t\t(width " ++ fmtNum w ++ ")\n" ++
        "\t\t\t(type solid)\n" ++
        "\t\t)\n" ++
        "\t\t(layer \"" ++ layer.to_kicad_string ++ "\")\n" ++
        "\t\t(tstamp \"" ++ u ++ "\")\n" ++
        "\t)\n" ∧
    LayerType.SilkScreen.to_kicad_string = "F.SilkS" ∧
    LayerType.Courtyard.to_kicad_string = "F.CrtYd" ∧
    LayerType.Fabrication.to_kicad_string = "F.Fab" ∧
    LayerType.Copper.to_kicad_string = "F.Cu" ∧
    LayerType.Mask.to_kicad_string = "F.Mask" ∧
    LayerType.Paste.to_kicad_string = "F.Paste" :=
  ⟨rfl, rfl, rfl, rfl, rfl, rfl, rfl⟩

/-- C6: generate_courtyard expands the bounding box by the margin on every
side onto the courtyard layer, and at the concrete input
Rectangle(-0.5,-0.25,0.5,0.25) with margin 0.41 the resulting bounds are
Rectangle(-0.91,-0.66,0.91,0.66). -/
theorem courtyard_arithmetic (bbox : Rectangle) (margin : ℚ) :
    Courtyard.new bbox margin =
      { bounds :=
          { min_x := bbox.min_x - margin
            min_y := bbox.min_y - margin
            max_x := bbox.max_x + margin
            max_y := bbox.max_y + margin }
        margin := margin
        layer := LayerType.Courtyard } ∧
    (Courtyard.new
        { min_x := -0.5, min_y := -0.25, max_x := 0.5, max_y := 0.25 }
        0.41).bounds =
      { min_x := -0.91, min_y := -0.66, max_x := 0.91, max_y := 0.66 } := by
  refine ⟨rfl, ?_⟩
  simp only [Courtyard.new, Rectangle.mk.injEq]
  norm_num

/-- C7: to_graphic_elements always returns exactly four Line elements that
trace the rectangle perimeter in the fixed order top edge (min_y, left to
right), right edge (top to bottom), bottom edge (right to left), left edge
(bottom to top), each with a solid stroke of width 0.05 on the courtyard's
layer — for every courtyard value, including degenerate or inverted
bounds; and every courtyard built by `Courtyard.new` carries the courtyard
layer. -/
theorem courtyard_four_lines (cy : Courtyard) (gen : Nat) :
    cy.to_graphic_elements gen =
      [ { element_type := GraphicType.Line
            (cy.bounds.min_x, cy.bounds.min_y)
            (cy.bounds.max_x, cy.bounds.min_y)
          layer := cy.layer
          stroke := { width := 0.05, stroke_type := StrokeType.Solid }
          uuid := freshUuid gen }
      , { element_type := GraphicType.Line
            (cy.bounds.max_x, cy.bounds.min_y)
            (cy.bounds.max_x, cy.bounds.max_y)
          layer := cy.layer
          stroke := { width := 0.05, stroke_type := StrokeType.Solid }
          uuid := freshUuid (gen + 1) }
      , { element_type := GraphicType.Line
            (cy.bounds.max_x, cy.bounds.max_y)
            (cy.bounds.min_x, cy.bounds.max_y)
          layer := cy.layer
          stroke := { width := 0.05, stroke_type := StrokeType.Solid }
          uuid := freshUuid (gen + 2) }
      , { element_type := GraphicType.Line
            (cy.bounds.min_x, cy.bounds.max_y)
            (cy.bounds.min_x, cy.bounds.min_y)
          layer := cy.layer
          stroke := { width := 0.05, stroke_type := StrokeType.Solid }
          uuid := freshUuid (gen + 3) } ] ∧
    (cy.to_graphic_elements gen).length = 4 ∧
    (∀ (bbox : Rectangle) (margin : ℚ),
      (Courtyard.new bbox margin).layer = LayerType.Courtyard) :=
  ⟨rfl, rfl, fun _ _ => rfl⟩

/-- C5: the output contains the surface-mount attribute line exactly when
some pad's pad_type is SMD — the attribute slot of the output is the attr
line when such a pad exists and is empty otherwise; a descriptor whose
pads are all ThroughHole or NPTH never produces it. -/
theorem smd_attribute_gating (c : BoardComposableObject) (gen : Nat) :
    (to_kicad_footprint c gen).1 =
      headerFixed c ++ descrSeg c ++ tagsSeg c ++
        (if anySMD c then "\t(attr smd)\n" else "") ++
        (jumperLine ++ textSection c ++ graphicsSection c gen ++
          padsSection c ++ modelSeg c ++ closingSection) ∧
    (anySMD c = true ↔ ∃ p ∈ c.pad_descriptors, p.pad_type = PadType.SMD) ∧
    ((∀ p ∈ c.pad_descriptors,
        p.pad_type = PadType.ThroughHole ∨ p.pad_type = PadType.NPTH) →
      anySMD c = false) := by
  refine ⟨?_, ?_, ?_⟩
  · rw [to_kicad_footprint_decomp]
    simp only [headerSection, attrSeg, String.append_assoc]
  · unfold anySMD
    simp only [List.any_eq_true]
    constructor
    · rintro ⟨p, hp, hsmd⟩
      refine ⟨p, hp, ?_⟩
      cases hpt : p.pad_type <;> simp [hpt] at hsmd ⊢
    · rintro ⟨p, hp, hsmd⟩
      exact ⟨p, hp, by simp [hsmd]⟩
  · intro h
    unfold anySMD
    simp only [List.any_eq_false]
    intro p hp
    rcases h p hp with h1 | h1 <;> simp [h1]

/-- A concrete descriptor whose two pads are both through-hole. -/
def cexTH : BoardComposableObject :=
  { is_smt := false
    is_electrical := true
    terminal_count := 2
    functional_type := FunctionalType.Resistor "R"
    footprint_name := "R_TH"
    library_name := "LIB"
    bounding_box := { min_x := 0, min_y := 0, max_x := 0, max_y := 0 }
    pad_descriptors :=
      [ { number := "1"
          pad_type := PadType.ThroughHole
          shape := PadShape.Circle
          position := (0, 0)
          size := (1, 1)
          drill_size := some 1
          layers := ["*.Cu"]
          roundrect_ratio := none
          tenting := { front := TentingType.None, back := TentingType.None }
          uuid := "p1" }
      , { number := "2"
          pad_type := PadType.NPTH
          shape := PadShape.Circle
          position := (1, 0)
          size := (1, 1)
          drill_size := some 1
          layers := ["*.Cu"]
          roundrect_ratio := none
          tenting := { front := TentingType.None, back := TentingType.None }
          uuid := "p2" }]
    description := none
    tags := none
    fp_text_elements := []
    graphic_elements := []
    model_3d := none
    courtyard_margin := 0 }

/-- Witness for the SMD gating theorem: a descriptor with only
through-hole and non-plated pads does not satisfy the SMD test. -/
theorem smd_attribute_gating_witness : anySMD cexTH = false :=
  (smd_attribute_gating cexTH 0).2.2 (by decide)

/-- C1 amended: serialization is a pure function of the descriptor state
and the fresh-token counter, and the counter's entire influence on the
output is the four courtyard identity tokens (the counter itself advances
by exactly four).  With the token source held fixed the output is
byte-identical; across successive calls only those four tokens change. -/
theorem serialization_state_dependence (c : BoardComposableObject)
    (gen : Nat) :
    to_kicad_footprint c gen =
      (headerSection c ++ textSection c ++
        (renderGraphics c.graphic_elements ++
          courtyardRender c.generate_courtyard (freshUuid gen)
            (freshUuid (gen + 1)) (freshUuid (gen + 2))
            (freshUuid (gen + 3))) ++
        padsSection c ++ modelSeg c ++ closingSection, gen + 4) := by
  rw [to_kicad_footprint_decomp]
  simp only [graphicsSection, renderGraphics_append,
    renderGraphics_courtyard]

set_option maxRecDepth 8000 in
/-- C1 counterexample: on a concrete descriptor with fixed state, running
the serializer twice in succession (the second call resuming from the
fresh-token state returned by the first) yields two different strings —
the courtyard tstamp tokens are drawn fresh on every call. -/
theorem successive_outputs_differ :
    (to_kicad_footprint cex 0).1 ≠
      (to_kicad_footprint cex (to_kicad_footprint cex 0).2).1 := by
  rw [to_kicad_footprint_decomp, to_kicad_footprint_decomp]
  simp only [cex, headerSection, headerFixed, descrSeg, tagsSeg, attrSeg,
    anySMD, jumperLine, textSection, renderTexts, graphicsSection,
    renderGraphics, padsSection, renderPads, modelSeg, closingSection,
    BoardComposableObject.generate_courtyard, Courtyard.new,
    Courtyard.to_graphic_elements, write_graphic_element, List.foldl,
    List.any_nil, List.nil_append, Bool.false_eq_true, if_false,
    String.append_assoc, String.empty_append, String.append_empty,
    Nat.zero_add, Nat.add_zero]
  intro h
  repeat replace h := str_append_left_cancel h
  exact str_prefix_ne (by decide) (by decide) h

/-- C8: optional inputs are serialized exactly when present, with no empty
placeholder when absent: the description, tags and model segments of the
decomposition are the rendered blocks of their values when the accessor is
some and are empty exactly when it is none; and an fp_text block carries a
third rotation field in its position exactly when the element's rotation
is present. -/
theorem optional_field_omission (c : BoardComposableObject) (gen : Nat)
    (t : FpText) :
    (to_kicad_footprint c gen).1 =
      headerFixed c ++ descrSeg c ++ tagsSeg c ++ attrSeg c ++ jumperLine ++
        textSection c ++ graphicsSection c gen ++ padsSection c ++
        modelSeg c ++ closingSection ∧
    descrSeg c =
      (match c.description with
       | some desc => "\t(descr \"" ++ desc ++ "\")\n"
       | none => "") ∧
    (descrSeg c = "" ↔ c.description = none) ∧
    tagsSeg c =
      (match c.tags with
       | some tags => "\t(tags \"" ++ tags ++ "\")\n"
       | none => "") ∧
    (tagsSeg c = "" ↔ c.tags = none) ∧
    modelSeg c =
      (match c.model_3d with
       | some model => modelStr model
       | none => "") ∧
    (modelSeg c = "" ↔ c.model_3d = none) ∧
    (∀ out, write_fp_text out t =
      out ++ "\t(fp_text " ++ textTypeStr t.text_type ++ " \"" ++
        t.text ++ "\"" ++
        (match t.rotation with
         | some r =>
             " (at " ++ fmtNum t.position.1 ++ " " ++
               fmtNum t.position.2 ++ " " ++ fmtNum r ++ ")"
         | none =>
             " (at " ++ fmtNum t.position.1 ++ " " ++
               fmtNum t.position.2 ++ ")") ++
        " (layer \"" ++ t.layer ++ "\")\n" ++
        "\t\t(effects (font (size " ++ fmtNum t.font.size.1 ++ " " ++
          fmtNum t.font.size.2 ++ ") (thickness " ++
          fmtNum t.font.thickness ++ ")))\n" ++
        "\t\t(tstamp \"" ++ t.uuid ++ "\")\n" ++
        "\t)\n") := by
  refine ⟨?_, rfl, ?_, rfl, ?_, rfl, ?_, ?_⟩
  · rw [to_kicad_footprint_decomp]
    simp only [headerSection, String.append_assoc]
  · unfold descrSeg
    cases hd : c.description with
    | none => simp
    | some d =>
        simp only [hd, Option.some_ne_none, iff_false]
        exact str_append_ne_empty (by decide)
  · unfold tagsSeg
    cases ht : c.tags with
    | none => simp
    | some s =>
        simp only [ht, Option.some_ne_none, iff_false]
        exact str_append_ne_empty (by decide)
  · unfold modelSeg modelStr
    cases hm : c.model_3d with
    | none => simp
    | some m =>
        simp only [hm, Option.some_ne_none, iff_false]
        exact str_append_ne_empty (by decide)
  · intro out
    unfold write_fp_text textTypeStr
    cases hr : t.rotation <;>
      simp [-String.reduceAppend, hr, String.append_assoc]

/-- Equality of the pad fields the serializer reads: everything except
drill_size and tenting. -/
def PadObsEq (p q : PadDescriptor) : Prop :=
  p.number = q.number ∧ p.pad_type = q.pad_type ∧ p.shape = q.shape ∧
  p.position = q.position ∧ p.size = q.size ∧ p.layers = q.layers ∧
  p.roundrect_ratio = q.roundrect_ratio ∧ p.uuid = q.uuid

/-- Equality of the descriptor accessors the serializer reads: everything
except is_smt, is_electrical, is_passive, terminal_count, functional_type
and library_name, and with pads compared by `PadObsEq`. -/
def SerializerObsEq (c1 c2 : BoardComposableObject) : Prop :=
  c1.footprint_name = c2.footprint_name ∧
  c1.bounding_box = c2.bounding_box ∧
  List.Forall₂ PadObsEq c1.pad_descriptors c2.pad_descriptors ∧
  c1.description = c2.description ∧
  c1.tags = c2.tags ∧
  c1.fp_text_elements = c2.fp_text_elements ∧
  c1.graphic_elements = c2.graphic_elements ∧
  c1.model_3d = c2.model_3d ∧
  c1.courtyard_margin = c2.courtyard_margin

/-- A pad block does not depend on drill_size or tenting. -/
theorem write_detailed_pad_obs {p q : PadDescriptor} (h : PadObsEq p q)
    (out : String) : write_detailed_pad out p = write_detailed_pad out q := by
  obtain ⟨h1, h2, h3, h4, h5, h6, h7, h8⟩ := h
  unfold write_detailed_pad
  rw [h1, h2, h3, h4, h5, h6, h7, h8]

/-- The pad section respects pad observational equality. -/
theorem renderPads_obs {l1 l2 : List PadDescriptor}
    (h : List.Forall₂ PadObsEq l1 l2) : renderPads l1 = renderPads l2 := by
  induction h with
  | nil => rfl
  | cons hpq _ ih =>
      unfold renderPads
      rw [List.foldl_cons, List.foldl_cons, write_detailed_pad_obs hpq,
        foldl_write_pad, foldl_write_pad, ih]

/-- The SMD test respects pad observational equality. -/
theorem anyPadSMD_obs {l1 l2 : List PadDescriptor}
    (h : List.Forall₂ PadObsEq l1 l2) :
    (l1.any fun pad =>
      match pad.pad_type with
      | PadType.SMD => true
      | _ => false) =
    (l2.any fun pad =>
      match pad.pad_type with
      | PadType.SMD => true
      | _ => false) := by
  induction h with
  | nil => rfl
  | cons hpq _ ih =>
      obtain ⟨-, h2, -⟩ := hpq
      simp only [List.any_cons, h2, ih]

/-- The SMD test of two observably equal descriptors agrees. -/
theorem anySMD_obs {c1 c2 : BoardComposableObject}
    (h : List.Forall₂ PadObsEq c1.pad_descriptors c2.pad_descriptors) :
    anySMD c1 = anySMD c2 := by
  unfold anySMD
  exact anyPadSMD_obs h

/-- C9: the serializer's output is independent of the classification and
identity accessors is_smt, is_electrical, is_passive, terminal_count,
library_name, functional_type, and of every pad's drill_size and tenting
fields: two descriptors agreeing on all other accessors and pad fields
serialize identically (so in particular a ThroughHole pad with a drill
size never contributes a drill field). -/
theorem serializer_accessor_independence (c1 c2 : BoardComposableObject)
    (gen : Nat) (h : SerializerObsEq c1 c2) :
    to_kicad_footprint c1 gen = to_kicad_footprint c2 gen := by
  obtain ⟨hn, hb, hp, hd, ht, hf, hg, hm, hcm⟩ := h
  rw [to_kicad_footprint_decomp, to_kicad_footprint_decomp]
  have hpads : padsSection c1 = padsSection c2 := renderPads_obs hp
  have hsmd : anySMD c1 = anySMD c2 := anySMD_obs hp
  unfold headerSection headerFixed descrSeg tagsSeg attrSeg textSection
    graphicsSection padsSection modelSeg BoardComposableObject.generate_courtyard
  rw [hn, hb, hd, ht, hf, hg, hm, hcm, hsmd]
  unfold padsSection at hpads
  rw [hpads]

/-- A two-pad descriptor: classification accessors set one way, a
through-hole pad carrying a drill size and full tenting. -/
def cexObsA : BoardComposableObject :=
  { is_smt := true
    is_electrical := true
    is_passive := true
    terminal_count := 2
    functional_type := FunctionalType.Capacitor "C"
    footprint_name := "C_TEST"
    library_name := "LIB_A"
    bounding_box := { min_x := 0, min_y := 0, max_x := 1, max_y := 1 }
    pad_descriptors :=
      [ { number := "1"
          pad_type := PadType.ThroughHole
          shape := PadShape.Circle
          position := (0, 0)
          size := (1, 1)
          drill_size := some 1
          layers := ["*.Cu"]
          roundrect_ratio := none
          tenting := { front := TentingType.Full, back := TentingType.Full }
          uuid := "p1" } ]
    description := none
    tags := none
    fp_text_elements := []
    graphic_elements := []
    model_3d := none
    courtyard_margin := 0 }

/-- The same descriptor with every serializer-irrelevant field changed:
classification flipped, identity accessors changed, drill size dropped and
tenting changed. -/
def cexObsB : BoardComposableObject :=
  { is_smt := false
    is_electrical := false
    is_passive := false
    terminal_count := 99
    functional_type := FunctionalType.FPGA "X"
    footprint_name := "C_TEST"
    library_name := "LIB_B"
    bounding_box := { min_x := 0, min_y := 0, max_x := 1, max_y := 1 }
    pad_descriptors :=
      [ { number := "1"
          pad_type := PadType.ThroughHole
          shape := PadShape.Circle
          position := (0, 0)
          size := (1, 1)
          drill_size := none
          layers := ["*.Cu"]
          roundrect_ratio := none
          tenting := { front := TentingType.None, back := TentingType.Partial }
          uuid := "p1" } ]
    description := none
    tags := none
    fp_text_elements := []
    graphic_elements := []
    model_3d := none
    courtyard_margin := 0 }

/-- Witness for accessor independence: the two concrete descriptors above,
differing in every serializer-irrelevant field, serialize identically. -/
theorem serializer_accessor_independence_witness :
    to_kicad_footprint cexObsA 0 = to_kicad_footprint cexObsB 0 :=
  serializer_accessor_independence cexObsA cexObsB 0
    ⟨rfl, rfl,
      List.Forall₂.cons ⟨rfl, rfl, rfl, rfl, rfl, rfl, rfl, rfl⟩
        List.Forall₂.nil,
      rfl, rfl, rfl, rfl, rfl, rfl⟩

/-- A formatting write to a String buffer (Rust: `write!` through
`<String as fmt::Write>::write_str`, which always returns `Ok`). -/
def writeStr (output : String) (s : String) : Except Unit String :=
  Except.ok (output ++ s)

/-- Rust `Result::unwrap` on a formatting result: the panic taken on `Err`
is modelled as `none`. -/
def unwrapWrite : Except Unit String → Option String
  | Except.ok s => some s
  | Except.error _ => none

/-- `write_fp_text` with every formatting write and unwrap made explicit
(the fallible mirror of the helper). -/
def write_fp_text_checked (output : String) (fp_text : FpText) :
    Option String := do
  let text_type_str :=
    match fp_text.text_type with
    | FpTextType.Reference => "reference"
    | FpTextType.Value => "value"
    | FpTextType.User => "user"
  let output ← unwrapWrite (writeStr output
    ("\t(fp_text " ++ text_type_str ++ " \"" ++ fp_text.text ++ "\""))
  let output ←
    match fp_text.rotation with
    | some rotation =>
        unwrapWrite (writeStr output
          (" (at " ++ fmtNum fp_text.position.1 ++ " " ++
            fmtNum fp_text.position.2 ++ " " ++ fmtNum rotation ++ ")"))
    | none =>
        unwrapWrite (writeStr output
          (" (at " ++ fmtNum fp_text.position.1 ++ " " ++
            fmtNum fp_text.position.2 ++ ")"))
  let output ← unwrapWrite (writeStr output
    (" (layer \"" ++ fp_text.layer ++ "\")\n"))
  let output ← unwrapWrite (writeStr output
    ("\t\t(effects (font (size " ++ fmtNum fp_text.font.size.1 ++ " " ++
      fmtNum fp_text.font.size.2 ++ ") (thickness " ++
      fmtNum fp_text.font.thickness ++ ")))\n"))
  let output ← unwrapWrite (writeStr output
    ("\t\t(tstamp \"" ++ fp_text.uuid ++ "\")\n"))
  unwrapWrite (writeStr output "\t)\n")

/-- `write_graphic_element` with explicit writes and unwraps. -/
def write_graphic_element_checked (output : String)
    (element : GraphicElement) : Option String :=
  match element.element_type with
  | GraphicType.Line start stop => do
      let output ← unwrapWrite (writeStr output "\t(fp_line\n")
      let output ← unwrapWrite (writeStr output
        ("\t\t(start " ++ fmtNum start.1 ++ " " ++ fmtNum start.2 ++ ")\n"))
      let output ← unwrapWrite (writeStr output
        ("\t\t(end " ++ fmtNum stop.1 ++ " " ++ fmtNum stop.2 ++ ")\n"))
      let output ← unwrapWrite (writeStr output "\t\t(stroke\n")
      let output ← unwrapWrite (writeStr output
        ("\t\t\t(width " ++ fmtNum element.stroke.width ++ ")\n"))
      let output ← unwrapWrite (writeStr output "\t\t\t(type solid)\n")
      let output ← unwrapWrite (writeStr output "\t\t)\n")
      let output ← unwrapWrite (writeStr output
        ("\t\t(layer \"" ++ element.layer.to_kicad_string ++ "\")\n"))
      let output ← unwrapWrite (writeStr output
        ("\t\t(tstamp \"" ++ element.uuid ++ "\")\n"))
      unwrapWrite (writeStr output "\t)\n")
  | _ => pure output

/-- `write_detailed_pad` with explicit writes and unwraps. -/
def write_detailed_pad_checked (output : String) (pad : PadDescriptor) :
    Option String := do
  let output ← unwrapWrite (writeStr output
    ("\t(pad \"" ++ pad.number ++ "\" " ++
      (match pad.pad_type with
       | PadType.SMD => "smd"
       | PadType.ThroughHole => "thru_hole"
       | PadType.NPTH => "np_thru_hole") ++ " " ++
      (match pad.shape with
       | PadShape.RoundRect => "roundrect"
       | PadShape.Rect => "rect"
       | PadShape.Circle => "circle"
       | PadShape.Oval => "oval")))
  let output ← unwrapWrite (writeStr output "\n")
  let output ← unwrapWrite (writeStr output
    ("\t\t(at " ++ fmtNum pad.position.1 ++ " " ++
      fmtNum pad.position.2 ++ ")\n"))
  let output ← unwrapWrite (writeStr output
    ("\t\t(size " ++ fmtNum pad.size.1 ++ " " ++
      fmtNum pad.size.2 ++ ")\n"))
  let output ← unwrapWrite (writeStr output "\t\t(layers")
  let output ← pad.layers.foldlM
    (fun acc layer => unwrapWrite (writeStr acc (" \"" ++ layer ++ "\"")))
    output
  let output ← unwrapWrite (writeStr output ")\n")
  let output ←
    match pad.roundrect_ratio with
    | some ratio =>
        unwrapWrite (writeStr output
          ("\t\t(roundrect_rratio " ++ fmtNum ratio ++ ")\n"))
    | none => pure output
  let output ← unwrapWrite (writeStr output
    ("\t\t(tstamp \"" ++ pad.uuid ++ "\")\n"))
  unwrapWrite (writeStr output "\t)\n")

/-- The 3-D model block with explicit writes and unwraps. -/
def write_model_checked (output : String) (model : Model3D) :
    Option String := do
  let output ← unwrapWrite (writeStr output
    ("\t(model \"" ++ model.path ++ "\"\n"))
  let output ← unwrapWrite (writeStr output "\t\t(offset\n")
  let output ← unwrapWrite (writeStr output
    ("\t\t\t(xyz " ++ fmtNum model.offset.1 ++ " " ++
      fmtNum model.offset.2.1 ++ " " ++ fmtNum model.offset.2.2 ++
      ")\n"))
  let output ← unwrapWrite (writeStr output "\t\t)\n")
  let output ← unwrapWrite (writeStr output "\t\t(scale\n")
  let output ← unwrapWrite (writeStr output
    ("\t\t\t(xyz " ++ fmtNum model.scale.1 ++ " " ++
      fmtNum model.scale.2.1 ++ " " ++ fmtNum model.scale.2.2 ++
      ")\n"))
  let output ← unwrapWrite (writeStr output "\t\t)\n")
  let output ← unwrapWrite (writeStr output "\t\t(rotate\n")
  let output ← unwrapWrite (writeStr output
    ("\t\t\t(xyz " ++ fmtNum model.rotation.1 ++ " " ++
      fmtNum model.rotation.2.1 ++ " " ++
      fmtNum model.rotation.2.2 ++ ")\n"))
  let output ← unwrapWrite (writeStr output "\t\t)\n")
  unwrapWrite (writeStr output "\t)\n")

/-- `to_kicad_footprint` with every write and unwrap explicit. -/
def to_kicad_footprint_checked (component : BoardComposableObject)
    (gen : Nat) : Option (String × Nat) := do
  let output := ""
  let output ← unwrapWrite (writeStr output
    ("(footprint \"" ++ component.footprint_name ++ "\"\n"))
  let output ← unwrapWrite (writeStr output "\t(version 20250401)\n")
  let output ← unwrapWrite (writeStr output
    "\t(generator \"custom_pcb_tool\")\n")
  let output ← unwrapWrite (writeStr output
    "\t(generator_version \"1.0\")\n")
  let output ← unwrapWrite (writeStr output "\t(layer \"F.Cu\")\n")
  let output ←
    match component.description with
    | some desc =>
        unwrapWrite (writeStr output ("\t(descr \"" ++ desc ++ "\")\n"))
    | none => pure output
  let output ←
    match component.tags with
    | some tags =>
        unwrapWrite (writeStr output ("\t(tags \"" ++ tags ++ "\")\n"))
    | none => pure output
  let is_smt := component.pad_descriptors.any fun pad =>
    match pad.pad_type with
    | PadType.SMD => true
    | _ => false
  let output ←
    if is_smt then unwrapWrite (writeStr output "\t(attr smd)\n")
    else pure output
  let output ← unwrapWrite (writeStr output
    "\t(duplicate_pad_numbers_are_jumpers no)\n")
  let output ← component.fp_text_elements.foldlM write_fp_text_checked
    output
  let courtyard := component.generate_courtyard
  let all_graphics :=
    component.graphic_elements ++ courtyard.to_graphic_elements gen
  let gen := gen + 4
  let output ← all_graphics.foldlM write_graphic_element_checked output
  let output ← component.pad_descriptors.foldlM write_detailed_pad_checked
    output
  let output ←
    match component.model_3d with
    | some model => write_model_checked output model
    | none => pure output
  let output ← unwrapWrite (writeStr output "\t(embedded_fonts no)\n")
  let output ← unwrapWrite (writeStr output ")\n")
  pure (output, gen)

/-- An Option-valued fold by writers that always succeed produces the
plain fold. -/
theorem foldlM_some {α : Type} (fo : String → α → Option String)
    (f : String → α → String) (h : ∀ s x, fo s x = some (f s x)) :
    ∀ (l : List α) (s : String), l.foldlM fo s = some (l.foldl f s)
  | [], s => rfl
  | x :: l, s => by
    rw [List.foldlM_cons, h s x]
    show (some (f s x)).bind _ = _
    rw [Option.some_bind]
    exact foldlM_some fo f h l (f s x)

/-- The checked text writer always succeeds with the plain result. -/
theorem write_fp_text_checked_eq (out : String) (t : FpText) :
    write_fp_text_checked out t = some (write_fp_text out t) := by
  unfold write_fp_text_checked write_fp_text writeStr unwrapWrite
  cases hr : t.rotation <;>
    simp [-String.reduceAppend, hr, String.append_assoc]

/-- The checked graphics writer always succeeds with the plain result. -/
theorem write_graphic_element_checked_eq (out : String)
    (e : GraphicElement) :
    write_graphic_element_checked out e =
      some (write_graphic_element out e) := by
  unfold write_graphic_element_checked write_graphic_element writeStr
    unwrapWrite
  cases he : e.element_type <;>
    simp [-String.reduceAppend, he, String.append_assoc]

/-- The checked pad writer always succeeds with the plain result. -/
theorem write_detailed_pad_checked_eq (out : String) (p : PadDescriptor) :
    write_detailed_pad_checked out p =
      some (write_detailed_pad out p) := by
  unfold write_detailed_pad_checked write_detailed_pad
  have hfold := foldlM_some
    (fun acc layer => unwrapWrite (writeStr acc (" \"" ++ layer ++ "\"")))
    (fun acc layer => acc ++ " \"" ++ layer ++ "\"")
    (fun s x => by simp [writeStr, unwrapWrite, String.append_assoc])
  simp only [hfold]
  cases hr : p.roundrect_ratio <;>
    simp [-String.reduceAppend, hr, writeStr, unwrapWrite,
      String.append_assoc]

/-- C10: the serializer is total.  Every formatting write targets the
in-memory string buffer and succeeds, so no unwrap can panic: the checked
serializer (with every fallible write and unwrap explicit) returns `some`
of the plain serializer's output on every descriptor state. -/
theorem to_kicad_footprint_total (c : BoardComposableObject) (gen : Nat) :
    to_kicad_footprint_checked c gen = some (to_kicad_footprint c gen) := by
  unfold to_kicad_footprint_checked to_kicad_footprint write_model_checked
  have hT := foldlM_some write_fp_text_checked write_fp_text
    write_fp_text_checked_eq
  have hG := foldlM_some write_graphic_element_checked write_graphic_element
    write_graphic_element_checked_eq
  have hP := foldlM_some write_detailed_pad_checked write_detailed_pad
    write_detailed_pad_checked_eq
  simp only [hT, hG, hP]
  cases hd : c.description <;> cases ht : c.tags <;>
    cases hm : c.model_3d <;>
      cases hs : c.pad_descriptors.any fun pad =>
          match pad.pad_type with
          | PadType.SMD => true
          | _ => false <;>
    simp [-String.reduceAppend, hd, ht, hm, hs, writeStr, unwrapWrite,
      String.append_assoc, String.empty_append]
